import Mathlib

/-
Verification development for the per-connection TTS request lifecycle manager
(src/app/endpoints/tts_ws.py, src/app/tts/text_to_audio.py,
src/app/tts/send_audio_to_frontend.py).

The shallow embedding models:
  * the global dict `active_tts_requests : Dict[WebSocket, asyncio.Task]`
    as an association list with dict-style insert/delete (`dictInsert`,
    `dictDelete`), keyed by an abstract connection identity;
  * one asyncio task per request as a `TaskRec` (its connection, its
    request id `int(request_started_at * 1000)`, and its phase);
  * the connection-loop and task operations that mutate the dict
    (`submitOp` for the tts_request branch, `completeOp` for the task's
    terminal transition including its `finally` cleanup, `deleteOp` for
    the playback_complete / connection-close deletions, `closeCancelOp`
    for the connection-close cancellation) as a step relation `Step`;
  * the ElevenLabs relay loop of `process_text_to_audio` as a recursion
    over a list of environment-supplied receive outcomes (`RelayStep`),
    and `send_audio_to_frontend` / `_process_tts_request` as pure
    functions producing the transcript of frames sent to the client.

Wall-clock values (`elapsed_sec`, `last_chunk_ts`) are abstracted away;
the relay's "more than 3.0 s since the last audio byte" test is supplied
per-iteration by the environment as the Boolean `stallOver3s`.

A central point of the embedding: `asyncio.Task.cancelled()` returns
True only for a task that has already finished by cancellation, so for
the currently running coroutine it is always False.  The three
`asyncio.current_task().cancelled()` checks in `_process_tts_request`
(lines 174, 196, 216) and the one in `process_text_to_audio` (line 110)
are therefore dead; the embedding renders them as the constant
`current_task_cancelled := false`.  Actual cancellation delivery is a
`CancelledError` thrown in at an await point, modelled by the
`RecvOutcome.cancelDelivered` outcome (delivery inside
`asyncio.wait_for(eleven.recv(), ...)`, caught by the generator's
`except asyncio.CancelledError: break`) and by `CancelPoint` (delivery
at one of `_process_tts_request`'s own `_send_json` awaits, where the
`except asyncio.CancelledError` handler emits the "cancelled" status).
-/

namespace TtsModel

/-! ## The supersession table: a Python dict keyed by the WebSocket -/

abbrev Conn := Nat
abbrev TaskId := Nat

/-- Lookup in the association-list model of a Python dict. -/
def dictLookup : List (Conn × TaskId) → Conn → Option TaskId
  | [], _ => none
  | (k, v) :: rest, c => if k = c then some v else dictLookup rest c

/-- `del d[c]` (a no-op on the table when the key is absent; the Python
`del` on an absent key raises `KeyError`, which never changes the dict). -/
def dictDelete (tbl : List (Conn × TaskId)) (c : Conn) : List (Conn × TaskId) :=
  tbl.filter (fun kv => kv.1 != c)

/-- `d[c] = t` : a Python dict assignment binds the key to exactly one value. -/
def dictInsert (tbl : List (Conn × TaskId)) (c : Conn) (t : TaskId) :
    List (Conn × TaskId) :=
  dictDelete tbl c ++ [(c, t)]

/-! ## Tasks -/

/-- Phase of one `_process_tts_request` task.  `running b` records whether
`Task.cancel()` has been requested (`b`); the other three constructors are
the terminal outcomes (coroutine returned after "done", finished by
propagating `CancelledError`, or failed with an error). -/
inductive TPhase where
  | running (cancelRequested : Bool)
  | doneOk
  | cancelled
  | failed
deriving DecidableEq

/-- `Task.done()` in asyncio: true exactly for the terminal phases. -/
def TPhase.isTerminal : TPhase → Bool
  | .running _ => false
  | _ => true

/-- One request task: its connection, its request id
(`int(request_started_at * 1000)`), and its phase. -/
structure TaskRec where
  conn : Conn
  reqId : Nat
  phase : TPhase
deriving DecidableEq

/-- Process state: the task-id allocator, the allocated tasks, and the
global `active_tts_requests` table. -/
structure Sys where
  nextId : TaskId
  tasks : TaskId → Option TaskRec
  table : List (Conn × TaskId)

def sysInit : Sys :=
  { nextId := 0, tasks := fun _ => none, table := [] }

/-- `old_task.cancel()`: request cancellation on task `t`; a no-op on a
task that is not running. -/
def setCancelRequested (tasks : TaskId → Option TaskRec) (t : TaskId) :
    TaskId → Option TaskRec :=
  fun u =>
    if u = t then
      match tasks t with
      | some r =>
        match r.phase with
        | .running _ => some { r with phase := .running true }
        | _ => some r
      | none => none
    else tasks u

/-- tts_ws.py lines 71-87: if the connection has an entry and its task is
not done, cancel it (without waiting); a done task is left untouched. -/
def cancelOldTask (s : Sys) (c : Conn) : TaskId → Option TaskRec :=
  match dictLookup s.table c with
  | some oldT =>
    match s.tasks oldT with
    | some r => if r.phase.isTerminal then s.tasks else setCancelRequested s.tasks oldT
    | none => s.tasks
  | none => s.tasks

/-- tts_ws.py lines 71-91 (the non-empty `tts_request` branch): cancel a
non-terminal existing task, `del` the old entry, create the new task and
record it — all without awaiting, hence one atomic step. -/
def submitOp (s : Sys) (c : Conn) (rid : Nat) : Sys :=
  { nextId := s.nextId + 1
    tasks := fun u =>
      if u = s.nextId then some ⟨c, rid, TPhase.running false⟩ else cancelOldTask s c u
    table := dictInsert s.table c s.nextId }

/-- The task's terminal transition.  The `finally` block of
`_process_tts_request` (lines 259-266) runs `if ws in active_tts_requests:
del active_tts_requests[ws]` with no await between the `del` and the
coroutine's return, so the deletion and the phase change form one step.
The guard is only `ws in active_tts_requests` — presence of any entry for
this task's connection, with no check that the entry still points at this
task. -/
def completeOp (s : Sys) (t : TaskId) (out : TPhase) : Sys :=
  match s.tasks t with
  | some r =>
    { nextId := s.nextId
      tasks := fun u => if u = t then some { r with phase := out } else s.tasks u
      table := dictDelete s.table r.conn }
  | none => s

/-- `if ws in active_tts_requests: del active_tts_requests[ws]` — the
deletion performed by the playback_complete branch (lines 109-114) and by
the connection-teardown `finally` (lines 151-159). -/
def deleteOp (s : Sys) (c : Conn) : Sys :=
  if (dictLookup s.table c).isSome then { s with table := dictDelete s.table c } else s

/-- Connection teardown (lines 151-158): cancel the tracked task when it
is not yet done. -/
def closeCancelOp (s : Sys) (c : Conn) : Sys :=
  match dictLookup s.table c with
  | some t =>
    match s.tasks t with
    | some r =>
      if r.phase.isTerminal then s else { s with tasks := setCancelRequested s.tasks t }
    | none => s
  | none => s

/-- The operations that mutate the supersession table and the tasks. -/
inductive Step : Sys → Sys → Prop where
  | submit (s : Sys) (c : Conn) (rid : Nat) : Step s (submitOp s c rid)
  | complete (s : Sys) (t : TaskId) (out : TPhase) (r : TaskRec)
      (hr : s.tasks t = some r) (hrun : r.phase.isTerminal = false)
      (hout : out.isTerminal = true) : Step s (completeOp s t out)
  | playbackComplete (s : Sys) (c : Conn) : Step s (deleteOp s c)
  | closeCancel (s : Sys) (c : Conn) : Step s (closeCancelOp s c)
  | closeDelete (s : Sys) (c : Conn) : Step s (deleteOp s c)

inductive Reachable : Sys → Prop where
  | init : Reachable sysInit
  | step {s s' : Sys} : Reachable s → Step s s' → Reachable s'

/-- At most one table entry per connection identity. -/
def TableUnique (s : Sys) : Prop :=
  ∀ c t₁ t₂, (c, t₁) ∈ s.table → (c, t₂) ∈ s.table → t₁ = t₂

/-- Every table entry points at a running (non-terminal) task of that very
connection. -/
def TableActive (s : Sys) : Prop :=
  ∀ c t, (c, t) ∈ s.table → ∃ rid b, s.tasks t = some ⟨c, rid, TPhase.running b⟩

/-- Ids at or above the allocator are unallocated. -/
def FreshIds (s : Sys) : Prop :=
  ∀ t, s.nextId ≤ t → s.tasks t = none

def Inv (s : Sys) : Prop := TableUnique s ∧ TableActive s ∧ FreshIds s

/-! ## Frames sent to the downstream client -/

/-- One frame sent to the frontend over the WebSocket.  `status` carries
the `stage` string and the optional `request_id`, `text_length` and
`audio_bytes_total` fields (the wall-clock `elapsed_sec` is abstracted
away); `audioBytes` is one binary audio frame of the given size. -/
inductive ClientMsg where
  | status (stage : String) (request_id : Option Nat) (text_length : Option Nat)
      (audio_bytes_total : Option Nat)
  | errorMsg (message : String) (request_id : Option Nat)
  | audioBytes (size : Nat)
  | pong
deriving DecidableEq

/-- The stages of the status frames of a transcript, in order. -/
def stagesOf : List ClientMsg → List String
  | [] => []
  | ClientMsg.status st _ _ _ :: rest => st :: stagesOf rest
  | _ :: rest => stagesOf rest

/-! ## Timeout Policy (text_to_audio.py lines 16-54) -/

/-- `calculate_aggressive_timeout(text_length, audio_bytes_received)`. -/
def calculate_aggressive_timeout (text_length : Nat) (audio_bytes_received : Nat) : Nat :=
  let base_timeout :=
    if text_length ≤ 50 then 4
    else if text_length ≤ 100 then 8
    else if text_length ≤ 200 then 14
    else if text_length ≤ 400 then 22
    else 26
  let adjusted_timeout :=
    if 0 < audio_bytes_received then max 1 (base_timeout - 1) else base_timeout
  min adjusted_timeout 8

/-! ## Streaming relay (text_to_audio.py lines 56-160) -/

/-- The `audio` field of a JSON frame from ElevenLabs: missing/null/empty,
a base64 string that fails to decode (the chunk is skipped with a
warning), or one that decodes to `size` bytes. -/
inductive AudioField where
  | absent
  | bad
  | good (size : Nat)
deriving DecidableEq

/-- One frame received from ElevenLabs: raw binary audio (not parseable
as JSON), or a JSON object with its optional audio payload, error
indication (`event == "error"` or an `error` key, with the resolved
message text), and final marker (`isFinal is True` or
`event == "finalOutput"`). -/
inductive UpFrame where
  | binary (size : Nat)
  | json (audio : AudioField) (isError : Bool) (errText : Option String) (isFinal : Bool)
deriving DecidableEq

/-- Outcome of one `asyncio.wait_for(eleven.recv(), timeout=...)`:
a frame, a timeout, or a `CancelledError` thrown in because the
consuming task was cancelled while suspended here (caught by
`except asyncio.CancelledError: break`, line 144-146). -/
inductive RecvOutcome where
  | frame (f : UpFrame)
  | timeout
  | cancelDelivered
deriving DecidableEq

/-- Environment input for one relay-loop iteration: whether more than
3.0 s have elapsed since the last audio byte when the loop top runs, and
what the awaited receive does. -/
structure RelayStep where
  stallOver3s : Bool
  recv : RecvOutcome
deriving DecidableEq

/-- `asyncio.current_task().cancelled()` for the currently running task:
`Task.cancelled()` is true only for a task that already finished by
cancellation, so inside the running coroutine it is constantly false
(the checks at tts_ws.py lines 174, 196, 216 and text_to_audio.py
line 110 are dead). -/
def current_task_cancelled : Bool := false

/-- The receive loop of `process_text_to_audio` (lines 108-149).  Returns
the yielded `(server_msg, audio_bytes_total-at-yield)` pairs and the
environment steps left unconsumed when the loop breaks.  The generator's
own `audio_bytes_total` counts only raw binary frames (line 152-154), and
is updated after the yield; `consecutive_empty_receives` resets on every
successful receive. -/
def relayGo : List RelayStep → Nat → Nat → List (UpFrame × Nat) × List RelayStep
  | [], _, _ => ([], [])
  | st :: rest, total, empties =>
    if current_task_cancelled then ([], rest)
    else if st.stallOver3s = true ∧ 0 < total then ([], rest)
    else
      match st.recv with
      | RecvOutcome.timeout =>
        if 2 ≤ empties + 1 ∧ 0 < total then ([], rest)
        else if 3 ≤ empties + 1 then ([], rest)
        else relayGo rest total (empties + 1)
      | RecvOutcome.cancelDelivered => ([], rest)
      | RecvOutcome.frame f =>
        let next :=
          relayGo rest (match f with | UpFrame.binary k => total + k | _ => total) 0
        ((f, total) :: next.1, next.2)

/-- The sequence yielded by `process_text_to_audio` under the given
environment steps. -/
def process_text_to_audio (steps : List RelayStep) : List (UpFrame × Nat) :=
  (relayGo steps 0 0).1

/-! ## Forwarding to the frontend (send_audio_to_frontend.py lines 10-59) -/

/-- `send_audio_to_frontend(ws, server_msg, audio_bytes_total, last_chunk_ts)`
without the wall-clock `last_chunk_ts`: returns the new byte total, the
frames sent to the client, and the should-break flag. -/
def send_audio_to_frontend (server_msg : UpFrame) (audio_bytes_total : Nat) :
    Nat × List ClientMsg × Bool :=
  match server_msg with
  | UpFrame.binary size =>
    (audio_bytes_total + size, [ClientMsg.audioBytes size], false)
  | UpFrame.json audio isError errText isFinal =>
    if isError = true then
      (audio_bytes_total,
       [ClientMsg.errorMsg (errText.getD "Okänt fel från TTS-leverantören") none],
       true)
    else
      match audio with
      | AudioField.good size =>
        if 0 < size then
          (audio_bytes_total + size, [ClientMsg.audioBytes size], isFinal)
        else (audio_bytes_total, [], isFinal)
      | _ => (audio_bytes_total, [], isFinal)

/-- The `async for` body of `_process_tts_request` (lines 194-213): each
yielded pair is handed to `send_audio_to_frontend` together with the
generator's `current_audio_bytes` (not the consumer's own accumulated
total); the consumer's `audio_bytes_total` is then overwritten with the
returned value, and the loop breaks when `should_break` is set.  Returns
the client frames and the consumer's final `audio_bytes_total`. -/
def consumeYields : List (UpFrame × Nat) → Nat → List ClientMsg × Nat
  | [], total => ([], total)
  | (f, cur) :: rest, _total =>
    match send_audio_to_frontend f cur with
    | (total', outs, true) => (outs, total')
    | (total', outs, false) =>
      let n := consumeYields rest total'
      (outs ++ n.1, n.2)

/-- Where the `CancelledError` of `Task.cancel()` is delivered, when it is
delivered at one of `_process_tts_request`'s own `_send_json` awaits: the
`except asyncio.CancelledError` handler (lines 239-250) then sends the
"cancelled" status.  Delivery inside the relay's receive is expressed by a
`RecvOutcome.cancelDelivered` step instead. -/
inductive CancelPoint where
  | noCancel
  | atSendProcessing
  | atSendConnecting
  | atSendStreaming
  | atSendDone
deriving DecidableEq

/-- `_process_tts_request` (tts_ws.py lines 168-258) as the transcript of
frames the client receives: the "processing" (with `text_length` and
`request_id`), "connecting-elevenlabs" and "streaming" statuses, the
forwarded audio, and the terminal status.  The dead
`current_task_cancelled` check before "done" is line 216. -/
def processTtsRequest (tl rid : Nat) (cp : CancelPoint) (steps : List RelayStep) :
    List ClientMsg :=
  match cp with
  | CancelPoint.atSendProcessing =>
    [ClientMsg.status "cancelled" (some rid) none none]
  | CancelPoint.atSendConnecting =>
    [ClientMsg.status "processing" (some rid) (some tl) none,
     ClientMsg.status "cancelled" (some rid) none none]
  | CancelPoint.atSendStreaming =>
    [ClientMsg.status "processing" (some rid) (some tl) none,
     ClientMsg.status "connecting-elevenlabs" none none none,
     ClientMsg.status "cancelled" (some rid) none none]
  | cp' =>
    let pre := [ClientMsg.status "processing" (some rid) (some tl) none,
                ClientMsg.status "connecting-elevenlabs" none none none,
                ClientMsg.status "streaming" none none none]
    let r := consumeYields (process_text_to_audio steps) 0
    if current_task_cancelled then pre ++ r.1
    else
      match cp' with
      | CancelPoint.atSendDone =>
        pre ++ r.1 ++ [ClientMsg.status "cancelled" (some rid) none none]
      | _ =>
        pre ++ r.1 ++ [ClientMsg.status "done" (some rid) none (some r.2)]

/-! ## Connection-loop message handlers (tts_ws.py lines 60-122) -/

/-- The whitespace characters recognised by the model of Python's
`str.strip()` (the ASCII whitespace subset of `str.isspace`). -/
def isPySpace (ch : Char) : Bool :=
  ch == ' ' || ch == '\t' || ch == '\n' || ch == '\r' ||
    ch == Char.ofNat 11 || ch == Char.ofNat 12

/-- Python `text.strip()`. -/
def pyStrip (s : String) : String :=
  String.mk (((s.toList.dropWhile isPySpace).reverse.dropWhile isPySpace).reverse)

inductive LoopCtl where
  | cont
  | stop
deriving DecidableEq

/-- The `tts_request` branch of the connection loop (lines 60-91):
stripped-empty text sends one error and continues without touching the
table; otherwise the supersession step runs and the loop continues (the
new task's own statuses are emitted later by the task itself). -/
def handle_tts_request (s : Sys) (c : Conn) (rid : Nat) (text : String) :
    Sys × List ClientMsg × LoopCtl :=
  if pyStrip text = "" then
    (s, [ClientMsg.errorMsg "No text provided" none], LoopCtl.cont)
  else
    (submitOp s c rid, [], LoopCtl.cont)

/-- The `playback_complete` branch of the connection loop (lines 102-122):
it reads `requestId` but never compares it with anything; it deletes the
connection's entry whenever one exists, and always replies
`status{stage:"done"}`. -/
def handle_playback_complete (s : Sys) (c : Conn) (reqId : Option Nat) :
    Sys × List ClientMsg :=
  let s' :=
    if (dictLookup s.table c).isSome then { s with table := dictDelete s.table c } else s
  (s', [ClientMsg.status "done" none none none])

/-! ## Concrete scenario states used by the counterexamples and witnesses -/

/-- A state with one running task (id 0, request id 111) tracked for
connection 7. -/
def oneTaskState : Sys :=
  { nextId := 1
    tasks := fun t => if t = 0 then some ⟨7, 111, TPhase.running false⟩ else none
    table := [(7, 0)] }

/-- First request on connection 7: task 0, request id 111. -/
def c3sA : Sys := submitOp sysInit 7 111

/-- Second request on connection 7 while task 0 is still running: task 0
is cancelled (fire-and-forget) and task 1 (request id 222) is recorded. -/
def c3sB : Sys := submitOp c3sA 7 222

/-- Relay environment: the consuming task is cancelled while the relay is
suspended in `asyncio.wait_for(eleven.recv(), ...)`. -/
def cancelDuringRecvSteps : List RelayStep :=
  [⟨false, RecvOutcome.cancelDelivered⟩]

/-- Relay environment: two JSON frames each carrying base64 audio that
decodes to 3 bytes, then a frame with `isFinal: true` and no audio. -/
def base64Steps : List RelayStep :=
  [⟨false, RecvOutcome.frame (UpFrame.json (AudioField.good 3) false none false)⟩,
   ⟨false, RecvOutcome.frame (UpFrame.json (AudioField.good 3) false none false)⟩,
   ⟨false, RecvOutcome.frame (UpFrame.json AudioField.absent false none true)⟩]

/-- Relay environment: a silent upstream — three consecutive receive
timeouts, no frame and no final marker ever. -/
def silentSteps : List RelayStep :=
  [⟨false, RecvOutcome.timeout⟩, ⟨false, RecvOutcome.timeout⟩, ⟨false, RecvOutcome.timeout⟩]

/-! ## Dict lemmas -/

theorem mem_dictDelete {tbl : List (Conn × TaskId)} {c : Conn} {kv : Conn × TaskId} :
    kv ∈ dictDelete tbl c ↔ kv ∈ tbl ∧ kv.1 ≠ c := by
  unfold dictDelete
  rw [List.mem_filter]
  simp [bne_iff_ne]

theorem mem_dictInsert {tbl : List (Conn × TaskId)} {c : Conn} {t : TaskId}
    {kv : Conn × TaskId} :
    kv ∈ dictInsert tbl c t ↔ (kv ∈ tbl ∧ kv.1 ≠ c) ∨ kv = (c, t) := by
  unfold dictInsert
  simp [mem_dictDelete]

theorem dictLookup_mem {tbl : List (Conn × TaskId)} {c : Conn} {t : TaskId}
    (h : dictLookup tbl c = some t) : (c, t) ∈ tbl := by
  induction tbl with
  | nil => simp [dictLookup] at h
  | cons kv rest ih =>
    obtain ⟨k, v⟩ := kv
    by_cases hk : k = c
    · subst hk
      simp only [dictLookup, if_pos rfl] at h
      cases h
      exact List.mem_cons_self _ _
    · simp only [dictLookup, if_neg hk] at h
      exact List.mem_cons_of_mem _ (ih h)

theorem dictLookup_dictDelete (tbl : List (Conn × TaskId)) (c : Conn) :
    dictLookup (dictDelete tbl c) c = none := by
  induction tbl with
  | nil => rfl
  | cons kv rest ih =>
    obtain ⟨k, v⟩ := kv
    by_cases hk : k = c
    · simpa [dictDelete, hk] using ih
    · simpa [dictDelete, List.filter_cons, bne_iff_ne, hk, dictLookup] using ih

theorem dictLookup_append_of_none {l₁ l₂ : List (Conn × TaskId)} {c : Conn}
    (h : dictLookup l₁ c = none) : dictLookup (l₁ ++ l₂) c = dictLookup l₂ c := by
  induction l₁ with
  | nil => rfl
  | cons kv rest ih =>
    obtain ⟨k, v⟩ := kv
    by_cases hk : k = c
    · simp [dictLookup, hk] at h
    · simp only [dictLookup, if_neg hk] at h ⊢
      exact ih h

theorem dictLookup_dictInsert_self (tbl : List (Conn × TaskId)) (c : Conn) (t : TaskId) :
    dictLookup (dictInsert tbl c t) c = some t := by
  unfold dictInsert
  rw [dictLookup_append_of_none (dictLookup_dictDelete tbl c)]
  simp [dictLookup]

theorem dictDelete_of_lookup_none {tbl : List (Conn × TaskId)} {c : Conn}
    (h : dictLookup tbl c = none) : dictDelete tbl c = tbl := by
  induction tbl with
  | nil => rfl
  | cons kv rest ih =>
    obtain ⟨k, v⟩ := kv
    by_cases hk : k = c
    · simp [dictLookup, hk] at h
    · simp only [dictLookup, if_neg hk] at h
      simp [dictDelete, List.filter_cons, bne_iff_ne, hk] at ih ⊢
      exact ih h

/-! ## Task-map lemmas -/

theorem setCancelRequested_running {tasks : TaskId → Option TaskRec} {t₀ u : TaskId}
    {c : Conn} {rid : Nat} {b : Bool}
    (h : tasks u = some ⟨c, rid, TPhase.running b⟩) :
    ∃ b', setCancelRequested tasks t₀ u = some ⟨c, rid, TPhase.running b'⟩ := by
  unfold setCancelRequested
  by_cases hu : u = t₀
  · subst hu
    rw [if_pos rfl, h]
    exact ⟨true, rfl⟩
  · rw [if_neg hu, h]
    exact ⟨b, rfl⟩

theorem setCancelRequested_none {tasks : TaskId → Option TaskRec} {t₀ u : TaskId}
    (h : tasks u = none) : setCancelRequested tasks t₀ u = none := by
  unfold setCancelRequested
  by_cases hu : u = t₀
  · subst hu
    rw [if_pos rfl, h]
  · rw [if_neg hu, h]

theorem cancelOldTask_running {s : Sys} {c : Conn} {u : TaskId}
    {cc : Conn} {rr : Nat} {bb : Bool}
    (h : s.tasks u = some ⟨cc, rr, TPhase.running bb⟩) :
    ∃ b', cancelOldTask s c u = some ⟨cc, rr, TPhase.running b'⟩ := by
  cases h1 : dictLookup s.table c with
  | none =>
    simp only [cancelOldTask, h1]
    exact ⟨bb, h⟩
  | some oldT =>
    cases hot : s.tasks oldT with
    | none =>
      simp only [cancelOldTask, h1, hot]
      exact ⟨bb, h⟩
    | some r =>
      by_cases hterm : r.phase.isTerminal
      · simp only [cancelOldTask, h1, hot, hterm, if_true]
        exact ⟨bb, h⟩
      · simp only [cancelOldTask, h1, hot, hterm, if_false, Bool.false_eq_true]
        exact setCancelRequested_running h

theorem cancelOldTask_none {s : Sys} {c : Conn} {u : TaskId}
    (h : s.tasks u = none) : cancelOldTask s c u = none := by
  cases h1 : dictLookup s.table c with
  | none =>
    simp only [cancelOldTask, h1]
    exact h
  | some oldT =>
    cases hot : s.tasks oldT with
    | none =>
      simp only [cancelOldTask, h1, hot]
      exact h
    | some r =>
      by_cases hterm : r.phase.isTerminal
      · simp only [cancelOldTask, h1, hot, hterm, if_true]
        exact h
      · simp only [cancelOldTask, h1, hot, hterm, if_false, Bool.false_eq_true]
        exact setCancelRequested_none h

/-! ## The inductive invariant -/

theorem inv_submitOp {s : Sys} (hinv : Inv s) (c : Conn) (rid : Nat) :
    Inv (submitOp s c rid) := by
  obtain ⟨huniq, hact, hfresh⟩ := hinv
  refine ⟨?_, ?_, ?_⟩
  · intro c₁ t₁ t₂ h₁ h₂
    rw [show (submitOp s c rid).table = dictInsert s.table c s.nextId from rfl,
      mem_dictInsert] at h₁ h₂
    rcases h₁ with ⟨hm₁, hk₁⟩ | he₁
    · rcases h₂ with ⟨hm₂, hk₂⟩ | he₂
      · exact huniq c₁ t₁ t₂ hm₁ hm₂
      · rw [Prod.mk.injEq] at he₂
        exact absurd he₂.1 hk₁
    · rcases h₂ with ⟨hm₂, hk₂⟩ | he₂
      · rw [Prod.mk.injEq] at he₁
        exact absurd he₁.1 hk₂
      · rw [Prod.mk.injEq] at he₁ he₂
        rw [he₁.2, he₂.2]
  · intro c₁ t h₁
    rw [show (submitOp s c rid).table = dictInsert s.table c s.nextId from rfl,
      mem_dictInsert] at h₁
    rcases h₁ with ⟨hm, hk⟩ | he
    · obtain ⟨rr, bb, hb⟩ := hact c₁ t hm
      have ht : t ≠ s.nextId := by
        intro hEq
        rw [hEq, hfresh s.nextId (le_refl _)] at hb
        cases hb
      obtain ⟨b', hb'⟩ := cancelOldTask_running hb
      exact ⟨rr, b', by simp only [submitOp, if_neg ht]; exact hb'⟩
    · rw [Prod.mk.injEq] at he
      rw [he.1, he.2]
      exact ⟨rid, false, by simp [submitOp]⟩
  · intro t ht
    have hsucc : s.nextId + 1 ≤ t := ht
    have ht' : t ≠ s.nextId := Nat.ne_of_gt hsucc
    simp only [submitOp, if_neg ht']
    exact cancelOldTask_none (hfresh t (Nat.le_of_succ_le hsucc))

theorem inv_completeOp {s : Sys} (hinv : Inv s) {t : TaskId} {r : TaskRec}
    (hr : s.tasks t = some r) (out : TPhase) :
    Inv (completeOp s t out) := by
  obtain ⟨huniq, hact, hfresh⟩ := hinv
  refine ⟨?_, ?_, ?_⟩
  · intro c₁ t₁ t₂ h₁ h₂
    simp only [completeOp, hr] at h₁ h₂
    rw [mem_dictDelete] at h₁ h₂
    exact huniq c₁ t₁ t₂ h₁.1 h₂.1
  · intro c₁ u h₁
    simp only [completeOp, hr] at h₁ ⊢
    rw [mem_dictDelete] at h₁
    obtain ⟨hm, hk⟩ := h₁
    obtain ⟨rr, bb, hb⟩ := hact c₁ u hm
    have hu : u ≠ t := by
      intro hEq
      rw [hEq, hr] at hb
      cases hb
      exact hk rfl
    exact ⟨rr, bb, by rw [if_neg hu]; exact hb⟩
  · intro u hu
    have hu' : s.nextId ≤ u := by
      simpa only [completeOp, hr] using hu
    simp only [completeOp, hr]
    have hut : u ≠ t := by
      intro hEq
      rw [← hEq, hfresh u hu'] at hr
      cases hr
    rw [if_neg hut]
    exact hfresh u hu'

theorem inv_deleteOp {s : Sys} (hinv : Inv s) (c : Conn) : Inv (deleteOp s c) := by
  obtain ⟨huniq, hact, hfresh⟩ := hinv
  unfold deleteOp
  by_cases hp : (dictLookup s.table c).isSome
  · rw [if_pos hp]
    refine ⟨?_, ?_, hfresh⟩
    · intro c₁ t₁ t₂ h₁ h₂
      rw [mem_dictDelete] at h₁ h₂
      exact huniq c₁ t₁ t₂ h₁.1 h₂.1
    · intro c₁ t h₁
      rw [mem_dictDelete] at h₁
      exact hact c₁ t h₁.1
  · rw [if_neg hp]
    exact ⟨huniq, hact, hfresh⟩

theorem inv_closeCancelOp {s : Sys} (hinv : Inv s) (c : Conn) :
    Inv (closeCancelOp s c) := by
  obtain ⟨huniq, hact, hfresh⟩ := hinv
  cases h1 : dictLookup s.table c with
  | none =>
    simp only [closeCancelOp, h1]
    exact ⟨huniq, hact, hfresh⟩
  | some t =>
    cases hot : s.tasks t with
    | none =>
      simp only [closeCancelOp, h1, hot]
      exact ⟨huniq, hact, hfresh⟩
    | some r =>
      by_cases hterm : r.phase.isTerminal
      · simp only [closeCancelOp, h1, hot, hterm, if_true]
        exact ⟨huniq, hact, hfresh⟩
      · simp only [closeCancelOp, h1, hot, hterm, if_false, Bool.false_eq_true]
        refine ⟨huniq, ?_, ?_⟩
        · intro c₁ u h₁
          obtain ⟨rr, bb, hb⟩ := hact c₁ u h₁
          obtain ⟨b', hb'⟩ := @setCancelRequested_running s.tasks t u c₁ rr bb hb
          exact ⟨rr, b', hb'⟩
        · intro u hu
          exact setCancelRequested_none (hfresh u hu)

theorem inv_step {s s' : Sys} (hinv : Inv s) (hst : Step s s') : Inv s' := by
  cases hst with
  | submit c rid => exact inv_submitOp hinv c rid
  | complete t out r hr hrun hout => exact inv_completeOp hinv hr out
  | playbackComplete c => exact inv_deleteOp hinv c
  | closeCancel c => exact inv_closeCancelOp hinv c
  | closeDelete c => exact inv_deleteOp hinv c

theorem inv_reachable {s : Sys} (h : Reachable s) : Inv s := by
  induction h with
  | init =>
    refine ⟨?_, ?_, ?_⟩
    · intro c t₁ t₂ h₁ _
      exact absurd h₁ (List.not_mem_nil _)
    · intro c t h₁
      exact absurd h₁ (List.not_mem_nil _)
    · intro t _
      rfl
  | step _ hst ih => exact inv_step ih hst

/-! ## Transcript helpers -/

theorem stagesOf_append (l₁ l₂ : List ClientMsg) :
    stagesOf (l₁ ++ l₂) = stagesOf l₁ ++ stagesOf l₂ := by
  induction l₁ with
  | nil => rfl
  | cons m rest ih =>
    cases m <;> simp [stagesOf, ih]

theorem stagesOf_send_audio (f : UpFrame) (cur : Nat) :
    stagesOf (send_audio_to_frontend f cur).2.1 = [] := by
  cases f with
  | binary size => rfl
  | json audio isError errText isFinal =>
    cases isError with
    | true => rfl
    | false =>
      cases audio with
      | absent => rfl
      | bad => rfl
      | good size =>
        by_cases hs : 0 < size
        · simp [send_audio_to_frontend, hs, stagesOf]
        · simp [send_audio_to_frontend, hs, stagesOf]

theorem stagesOf_consumeYields (ys : List (UpFrame × Nat)) (total : Nat) :
    stagesOf (consumeYields ys total).1 = [] := by
  induction ys generalizing total with
  | nil => rfl
  | cons p rest ih =>
    obtain ⟨f, cur⟩ := p
    have hs := stagesOf_send_audio f cur
    rcases hsa : send_audio_to_frontend f cur with ⟨t', outs, brk⟩
    rw [hsa] at hs
    cases brk
    · simp only [consumeYields, hsa, stagesOf_append, hs, ih]
      rfl
    · simpa only [consumeYields, hsa] using hs

/-! ## Strip helpers -/

theorem dropWhile_eq_nil_of_all_space {l : List Char}
    (h : l.all isPySpace = true) : l.dropWhile isPySpace = [] := by
  induction l with
  | nil => rfl
  | cons a rest ih =>
    rw [List.all_cons, Bool.and_eq_true] at h
    simp [List.dropWhile, h.1, ih h.2]

theorem pyStrip_eq_empty_of_all_space {text : String}
    (h : text.toList.all isPySpace = true) : pyStrip text = "" := by
  unfold pyStrip
  rw [dropWhile_eq_nil_of_all_space h]
  rfl

/-! ## Claim theorems -/

/-- C5: in every reachable state the supersession table
(`active_tts_requests`) has at most one entry per connection identity, and
a connection with no running (non-terminal) task has no entry; the steps
`Step` cover submit, terminal-state cleanup, playback_complete handling,
and connection close. -/
theorem supersession_table_invariant (s : Sys) (h : Reachable s) :
    (∀ c t₁ t₂, (c, t₁) ∈ s.table → (c, t₂) ∈ s.table → t₁ = t₂) ∧
    (∀ c, (∀ t rid b, s.tasks t = some ⟨c, rid, TPhase.running b⟩ → False) →
      dictLookup s.table c = none) := by
  obtain ⟨huniq, hact, -⟩ := inv_reachable h
  refine ⟨huniq, ?_⟩
  intro c hno
  cases hl : dictLookup s.table c with
  | none => rfl
  | some t =>
    obtain ⟨rid, b, hb⟩ := hact c t (dictLookup_mem hl)
    exact absurd hb (fun hb' => hno t rid b hb')

/-- Witness for C5: the conclusion at the concrete reachable state with
one submitted request. -/
theorem supersession_table_invariant_witness :
    (∀ c t₁ t₂, (c, t₁) ∈ (submitOp sysInit 7 111).table →
      (c, t₂) ∈ (submitOp sysInit 7 111).table → t₁ = t₂) ∧
    (∀ c, (∀ t rid b,
        (submitOp sysInit 7 111).tasks t = some ⟨c, rid, TPhase.running b⟩ → False) →
      dictLookup (submitOp sysInit 7 111).table c = none) :=
  supersession_table_invariant (submitOp sysInit 7 111)
    (Reachable.step Reachable.init (Step.submit sysInit 7 111))

/-- C4: on a new `tts_request`, the submit step records the new task as
the connection's entry unconditionally; an existing non-terminal task is
signalled for cancellation and is still non-terminal when the new entry
is installed (no waiting for its teardown); an existing terminal task is
left untouched and simply replaced. -/
theorem submit_supersedes (s : Sys) (c : Conn) (rid : Nat)
    (hfresh : s.tasks s.nextId = none) :
    dictLookup (submitOp s c rid).table c = some s.nextId ∧
    (submitOp s c rid).tasks s.nextId = some ⟨c, rid, TPhase.running false⟩ ∧
    (∀ t rid₀ b, dictLookup s.table c = some t →
      s.tasks t = some ⟨c, rid₀, TPhase.running b⟩ →
      (submitOp s c rid).tasks t = some ⟨c, rid₀, TPhase.running true⟩) ∧
    (∀ t r, dictLookup s.table c = some t → s.tasks t = some r →
      r.phase.isTerminal = true → (submitOp s c rid).tasks t = some r) := by
  refine ⟨dictLookup_dictInsert_self s.table c s.nextId, by simp [submitOp], ?_, ?_⟩
  · intro t rid₀ b hlook htask
    have ht : t ≠ s.nextId := by
      intro hEq
      rw [hEq, hfresh] at htask
      cases htask
    simp only [submitOp, if_neg ht, cancelOldTask, hlook, htask,
      TPhase.isTerminal, if_false, Bool.false_eq_true]
    unfold setCancelRequested
    rw [if_pos rfl, htask]
  · intro t r hlook htask hterm
    have ht : t ≠ s.nextId := by
      intro hEq
      rw [hEq, hfresh] at htask
      cases htask
    simp only [submitOp, if_neg ht, cancelOldTask, hlook, htask, hterm, if_true]

/-- Witness for C4 at a state with one running task tracked for
connection 7. -/
theorem submit_supersedes_witness :
    dictLookup (submitOp oneTaskState 7 222).table 7 = some 1 ∧
    (submitOp oneTaskState 7 222).tasks 1 = some ⟨7, 222, TPhase.running false⟩ ∧
    (submitOp oneTaskState 7 222).tasks 0 = some ⟨7, 111, TPhase.running true⟩ :=
  ⟨(submit_supersedes oneTaskState 7 222 (by decide)).1,
   (submit_supersedes oneTaskState 7 222 (by decide)).2.1,
   (submit_supersedes oneTaskState 7 222 (by decide)).2.2.1 0 111 false
     (by decide) (by decide)⟩

/-- C3 counterexample: connection 7 submits request 111 (task 0) and then
request 222 (task 1); task 0 is cancelled and the table points at task 1.
When the slow old task 0 later reaches its terminal state, its cleanup
removes the entry — the one installed by the newer task 1, which is still
running.  The claimed identity guard does not exist. -/
theorem old_task_clobbers_new_entry :
    dictLookup c3sB.table 7 = some 1 ∧
    c3sB.tasks 1 = some ⟨7, 222, TPhase.running false⟩ ∧
    c3sB.tasks 0 = some ⟨7, 111, TPhase.running true⟩ ∧
    dictLookup (completeOp c3sB 0 TPhase.cancelled).table 7 = none ∧
    (completeOp c3sB 0 TPhase.cancelled).tasks 1 =
      some ⟨7, 222, TPhase.running false⟩ := by
  decide

/-- C3 amended: on reaching a terminal state a task removes the
supersession-table entry of its connection whenever one exists — guarded
only by key presence (`ws in active_tts_requests`), not by task identity,
so the removal also hits an entry installed by a newer task. -/
theorem cleanup_removes_entry_unconditionally (s : Sys) (t : TaskId) (r : TaskRec)
    (out : TPhase) (h : s.tasks t = some r) :
    (completeOp s t out).table = dictDelete s.table r.conn ∧
    dictLookup (completeOp s t out).table r.conn = none := by
  constructor
  · simp only [completeOp, h]
  · simp only [completeOp, h]
    exact dictLookup_dictDelete s.table r.conn

/-- Witness for the amended C3 at the two-request scenario state. -/
theorem cleanup_removes_entry_unconditionally_witness :
    (completeOp c3sB 0 TPhase.cancelled).table = dictDelete c3sB.table 7 ∧
    dictLookup (completeOp c3sB 0 TPhase.cancelled).table 7 = none :=
  cleanup_removes_entry_unconditionally c3sB 0 ⟨7, 111, TPhase.running true⟩
    TPhase.cancelled (by decide)

/-- C7 counterexample: the tracked task of connection 7 has request id
111, but a `playback_complete` referencing request id 222 — not the
tracked one — still clears the entry, contrary to the claimed "only if
the referenced request id is the one still tracked" guard. -/
theorem playback_unknown_id_still_clears :
    (222 ≠ 111) ∧
    oneTaskState.tasks 0 = some ⟨7, 111, TPhase.running false⟩ ∧
    dictLookup oneTaskState.table 7 = some 0 ∧
    dictLookup (handle_playback_complete oneTaskState 7 (some 222)).1.table 7 = none := by
  decide

/-- C7 amended: the `playback_complete` handler clears the connection's
bookkeeping entry whenever one exists, regardless of the referenced
request id (which it never compares with anything); in all cases —
including when nothing is tracked — it replies with exactly one
`status{stage:"done"}` message, and its result does not depend on the
referenced id. -/
theorem playback_clears_and_acks (s : Sys) (c : Conn) (reqId : Option Nat) :
    (handle_playback_complete s c reqId).1.table = dictDelete s.table c ∧
    (handle_playback_complete s c reqId).2 =
      [ClientMsg.status "done" none none none] ∧
    (∀ reqId', handle_playback_complete s c reqId =
      handle_playback_complete s c reqId') := by
  refine ⟨?_, rfl, fun _ => rfl⟩
  unfold handle_playback_complete
  by_cases hp : (dictLookup s.table c).isSome
  · rw [if_pos hp]
  · rw [if_neg hp]
    have hn : dictLookup s.table c = none := by
      cases hl : dictLookup s.table c with
      | none => rfl
      | some t => rw [hl] at hp; exact absurd rfl hp
    exact (dictDelete_of_lookup_none hn).symm

/-- C8 counterexample: for a 150-character text the per-wait allowance is
clamped to the 8-second maximum with and without received audio, so it is
not strictly smaller once audio has arrived. -/
theorem timeout_not_strictly_smaller :
    0 < 150 ∧ 0 < 1 ∧
    calculate_aggressive_timeout 150 1 = 8 ∧
    calculate_aggressive_timeout 150 0 = 8 ∧
    ¬ calculate_aggressive_timeout 150 1 < calculate_aggressive_timeout 150 0 := by
  decide

/-- C8 amended: once at least one audio byte has been received the
next-wait allowance is never larger than with zero audio, and it is
strictly smaller exactly when the text is at most 100 characters — for
longer text both allowances are clamped to the 8-second maximum. -/
theorem timeout_shrinks_weakly (tl ab : Nat) (hab : 0 < ab) :
    calculate_aggressive_timeout tl ab ≤ calculate_aggressive_timeout tl 0 ∧
    (calculate_aggressive_timeout tl ab < calculate_aggressive_timeout tl 0 ↔
      tl ≤ 100) := by
  simp only [calculate_aggressive_timeout]
  split_ifs <;> omega

/-- Witness for the amended C8 at a short text with audio received. -/
theorem timeout_shrinks_weakly_witness :
    calculate_aggressive_timeout 30 5 ≤ calculate_aggressive_timeout 30 0 ∧
    (calculate_aggressive_timeout 30 5 < calculate_aggressive_timeout 30 0 ↔
      30 ≤ 100) :=
  timeout_shrinks_weakly 30 5 (by decide)

/-- C9: a `tts_request` whose text is empty or all whitespace sends
exactly one error message, creates no task, leaves the supersession table
(and the whole state) unchanged, and the connection loop continues. -/
theorem empty_text_rejected (s : Sys) (c : Conn) (rid : Nat) (text : String)
    (h : text.toList.all isPySpace = true) :
    handle_tts_request s c rid text =
      (s, [ClientMsg.errorMsg "No text provided" none], LoopCtl.cont) := by
  unfold handle_tts_request
  rw [if_pos (pyStrip_eq_empty_of_all_space h)]

/-- Witness for C9 on a whitespace-only text. -/
theorem empty_text_rejected_witness :
    handle_tts_request sysInit 7 111 " \t " =
      (sysInit, [ClientMsg.errorMsg "No text provided" none], LoopCtl.cont) :=
  empty_text_rejected sysInit 7 111 " \t " (by decide)

/-- C6: when the upstream never produces a frame, the relay loop exits
after exactly three consecutive per-wait timeouts (with zero audio
received), the exit is treated as a clean end of stream, and the client
receives a `done` status with `audio_bytes_total = 0` and no error
message. -/
theorem silent_upstream_times_out (tl rid : Nat) (steps : List RelayStep)
    (hlen : 3 ≤ steps.length)
    (hto : ∀ st ∈ steps, st.recv = RecvOutcome.timeout) :
    processTtsRequest tl rid CancelPoint.noCancel steps =
      [ClientMsg.status "processing" (some rid) (some tl) none,
       ClientMsg.status "connecting-elevenlabs" none none none,
       ClientMsg.status "streaming" none none none,
       ClientMsg.status "done" (some rid) none (some 0)] ∧
    (relayGo steps 0 0).2 = steps.drop 3 := by
  rcases steps with _ | ⟨a, _ | ⟨b, _ | ⟨c, rest⟩⟩⟩
  · exact absurd hlen (by simp)
  · exact absurd hlen (by simp)
  · exact absurd hlen (by simp)
  · have ha : a.recv = RecvOutcome.timeout := hto a (by simp)
    have hb : b.recv = RecvOutcome.timeout := hto b (by simp)
    have hc : c.recv = RecvOutcome.timeout := hto c (by simp)
    have hrelay : relayGo (a :: b :: c :: rest) 0 0 = ([], rest) := by
      simp [relayGo, current_task_cancelled, ha, hb, hc]
    refine ⟨?_, by rw [hrelay]; rfl⟩
    simp [processTtsRequest, process_text_to_audio, hrelay, consumeYields,
      current_task_cancelled]

/-- Witness for C6 on three concrete timeouts. -/
theorem silent_upstream_times_out_witness :
    processTtsRequest 4 1000 CancelPoint.noCancel silentSteps =
      [ClientMsg.status "processing" (some 1000) (some 4) none,
       ClientMsg.status "connecting-elevenlabs" none none none,
       ClientMsg.status "streaming" none none none,
       ClientMsg.status "done" (some 1000) none (some 0)] ∧
    (relayGo silentSteps 0 0).2 = silentSteps.drop 3 :=
  silent_upstream_times_out 4 1000 silentSteps (by decide) (by decide)

/-- C1 (code bug): the consuming task is cancelled while the relay awaits
the next upstream frame; `process_text_to_audio` catches the
`CancelledError` and breaks, `Task.cancelled()` stays false for the
running task, and the client receives a `done` status — never a
`cancelled` one — for the cancelled request. -/
theorem cancellation_during_recv_yields_done :
    processTtsRequest 12 1000 CancelPoint.noCancel cancelDuringRecvSteps =
      [ClientMsg.status "processing" (some 1000) (some 12) none,
       ClientMsg.status "connecting-elevenlabs" none none none,
       ClientMsg.status "streaming" none none none,
       ClientMsg.status "done" (some 1000) none (some 0)] ∧
    "cancelled" ∉ stagesOf (processTtsRequest 12 1000 CancelPoint.noCancel
      cancelDuringRecvSteps) := by
  decide

/-- C2 (code bug): two JSON frames with base64 audio of 3 bytes each, then
a final marker: the client receives the two binary frames, but the `done`
status reports `audio_bytes_total = 0` instead of 6, because
`_process_tts_request` hands `send_audio_to_frontend` the generator's
binary-only `current_audio_bytes` instead of its own accumulated total. -/
theorem base64_accounting_lost :
    processTtsRequest 20 1000 CancelPoint.noCancel base64Steps =
      [ClientMsg.status "processing" (some 1000) (some 20) none,
       ClientMsg.status "connecting-elevenlabs" none none none,
       ClientMsg.status "streaming" none none none,
       ClientMsg.audioBytes 3, ClientMsg.audioBytes 3,
       ClientMsg.status "done" (some 1000) none (some 0)] ∧
    3 + 3 ≠ 0 := by
  decide

/-- C10 counterexample: the second status the task emits has stage
"connecting-elevenlabs", which is not the claimed "connecting" and is
outside the claimed stage vocabulary. -/
theorem connecting_stage_mismatch :
    (processTtsRequest 5 1000 CancelPoint.noCancel []).get? 1 =
      some (ClientMsg.status "connecting-elevenlabs" none none none) ∧
    "connecting-elevenlabs" ≠ "connecting" ∧
    "connecting-elevenlabs" ∉
      ["ready", "processing", "connecting", "streaming", "done", "cancelled"] := by
  decide

/-- C10 amended: before any audio frame the client receives, in order, a
"processing" status (with `text_length` and `request_id`), a status whose
stage is exactly "connecting-elevenlabs", and a "streaming" status; every
status stage the task can emit lies in the vocabulary
ready / processing / connecting-elevenlabs / streaming / done / cancelled. -/
theorem status_sequence (tl rid : Nat) (steps : List RelayStep) (cp : CancelPoint) :
    (processTtsRequest tl rid CancelPoint.noCancel steps).take 3 =
      [ClientMsg.status "processing" (some rid) (some tl) none,
       ClientMsg.status "connecting-elevenlabs" none none none,
       ClientMsg.status "streaming" none none none] ∧
    ∀ st ∈ stagesOf (processTtsRequest tl rid cp steps),
      st ∈ ["ready", "processing", "connecting-elevenlabs", "streaming", "done",
        "cancelled"] := by
  constructor
  · rfl
  · intro st hst
    cases cp with
    | atSendProcessing =>
      have h : stagesOf (processTtsRequest tl rid CancelPoint.atSendProcessing steps)
          = ["cancelled"] := rfl
      rw [h] at hst
      fin_cases hst <;> decide
    | atSendConnecting =>
      have h : stagesOf (processTtsRequest tl rid CancelPoint.atSendConnecting steps)
          = ["processing", "cancelled"] := rfl
      rw [h] at hst
      fin_cases hst <;> decide
    | atSendStreaming =>
      have h : stagesOf (processTtsRequest tl rid CancelPoint.atSendStreaming steps)
          = ["processing", "connecting-elevenlabs", "cancelled"] := rfl
      rw [h] at hst
      fin_cases hst <;> decide
    | noCancel =>
      have h : stagesOf (processTtsRequest tl rid CancelPoint.noCancel steps)
          = ["processing", "connecting-elevenlabs", "streaming", "done"] := by
        show stagesOf (_ ++ _ ++ _) = _
        rw [stagesOf_append, stagesOf_append, stagesOf_consumeYields]
        rfl
      rw [h] at hst
      fin_cases hst <;> decide
    | atSendDone =>
      have h : stagesOf (processTtsRequest tl rid CancelPoint.atSendDone steps)
          = ["processing", "connecting-elevenlabs", "streaming", "cancelled"] := by
        show stagesOf (_ ++ _ ++ _) = _
        rw [stagesOf_append, stagesOf_append, stagesOf_consumeYields]
        rfl
      rw [h] at hst
      fin_cases hst <;> decide

/-- Witness for the amended C10. -/
theorem status_sequence_witness :
    (processTtsRequest 4 1000 CancelPoint.noCancel []).take 3 =
      [ClientMsg.status "processing" (some 1000) (some 4) none,
       ClientMsg.status "connecting-elevenlabs" none none none,
       ClientMsg.status "streaming" none none none] ∧
    "processing" ∈ ["ready", "processing", "connecting-elevenlabs", "streaming",
      "done", "cancelled"] :=
  ⟨(status_sequence 4 1000 [] CancelPoint.noCancel).1,
   (status_sequence 4 1000 [] CancelPoint.noCancel).2 "processing" (by decide)⟩

end TtsModel
